import Mathlib

/-!
Shallow embedding of the `logger_system` Python package
(`src/logger_system/{loggers.py, logging.py, log_models.py, logging_manager.py}`).

Conventions used throughout:
* A Python stack-frame pointer is a `List Frame`: the empty list models the
  `None` pointer, the head of a non-empty list models the current frame, and
  the tail models the chain reachable through `f_back`.
* Python attributes that may be absent are `Option (Option _)`: the outer
  `Option` is attribute presence (`none` = `getattr` would fall back to its
  default), the inner one is the Python value (`none` = the value `None`).
* Code that can raise is embedded as an `Option`-returning function where the
  raise matters; `none` models the exception propagating.
-/

set_option autoImplicit false

namespace LoggerSystem

/-- A Python stack frame as seen by `inspect`: `f_code.co_name`, `f_lineno`,
`f_globals.get("__name__")`, and the class of `f_locals["self"]` when a
`self` local is bound (`none` otherwise). -/
structure Frame where
  co_name : String
  f_lineno : Nat
  f_globals_name : Option String
  f_locals_self_cls : Option String
deriving DecidableEq

/-- The dictionary returned by `loggers.AutoTracker.get_execution_info`:
keys `function`, `lineno`, `module`, `class`; each value may be Python
`None`. -/
structure ExecInfo where
  function : Option String
  lineno : Option Nat
  module : Option String
  cls : Option String
deriving DecidableEq

/-- The all-`None` dictionary returned when no frame at all is available. -/
def ExecInfo.empty : ExecInfo := ⟨none, none, none, none⟩

/-- The dictionary built from one concrete frame in
`loggers.AutoTracker.get_execution_info`. -/
def ExecInfo.ofFrame (f : Frame) : ExecInfo :=
  ⟨some f.co_name, some f.f_lineno, f.f_globals_name, f.f_locals_self_cls⟩

namespace Loggers

/-- The frame-walking loop of `loggers.AutoTracker.get_execution_info`
(loggers.py lines 40-49): `for _ in range(3): if frame is not None: frame =
frame.f_back; if frame is not None: last_available_frame = frame; else:
break`.  `frame` and `last` are frame pointers (`[]` = `None`). -/
def trackLoop : Nat → List Frame → List Frame → List Frame × List Frame
  | 0, frame, last => (frame, last)
  | n + 1, frame, last =>
    match frame with
    | [] => ([], last)
    | _ :: back =>
      match back with
      | [] => trackLoop n [] last
      | f :: rest => trackLoop n (f :: rest) (f :: rest)

/-- Embedding of `loggers.AutoTracker.get_execution_info` (loggers.py
lines 30-65).  `stack` is the pointer returned by `inspect.currentframe()`
inside the resolver: its head is the resolver's own frame. -/
def AutoTracker.get_execution_info (stack : List Frame) : ExecInfo :=
  let r := trackLoop 3 stack stack
  match r.2 with
  | [] => ExecInfo.empty
  | f :: _ => ExecInfo.ofFrame f

/-- The resolver's own frame (the `get_execution_info` invocation,
loggers.py line 40). -/
def resolverFrame : Frame :=
  ⟨"get_execution_info", 40, some "logger_system.loggers", none⟩

/-- The frame of the internal dispatch method `Logger._log`
(loggers.py line 116, where `AutoTracker.get_execution_info()` is called). -/
def logFrame : Frame :=
  ⟨"_log", 116, some "logger_system.loggers", some "Logger"⟩

/-- The frame of a public facade level method (`debug`/`info`/`warning`/
`error`/`critical`), parameterised by its name and the line of its
`self._log(...)` call. -/
def levelMethodFrame (method : String) (line : Nat) : Frame :=
  ⟨method, line, some "logger_system.loggers", some "Logger"⟩

/-- Caller context as resolved inside `Logger._log` (loggers.py line 116):
by the time the resolver runs, its own frame and `_log`'s frame sit on top
of the stack the caller of `_log` saw. -/
def Logger.log_execInfo (callerStack : List Frame) : ExecInfo :=
  AutoTracker.get_execution_info (resolverFrame :: logFrame :: callerStack)

/-- Caller context resolved for a facade level-method call: the level
method's frame sits between `_log` and the application stack. -/
def Logger.level_execInfo (method : String) (line : Nat)
    (appStack : List Frame) : ExecInfo :=
  Logger.log_execInfo (levelMethodFrame method line :: appStack)

end Loggers

namespace LoggingPy

/-- The dictionary returned by `logging.AutoTracker.get_execution_info`
(logging.py lines 24-30): keys `function`, `lineno`, `module`. -/
structure ExecInfoPy where
  function : String
  lineno : Nat
  module : Option String
deriving DecidableEq

/-- Embedding of `logging.AutoTracker.get_execution_info` (logging.py lines
24-30): `frame = inspect.currentframe().f_back.f_back.f_back` followed by
field reads.  When the stack holds fewer than three enclosing frames, an
attribute access on `None` raises `AttributeError`; the raise is modelled by
`none`. -/
def AutoTracker.get_execution_info (stack : List Frame) :
    Option ExecInfoPy :=
  match stack with
  | _ :: _ :: _ :: f :: _ => some ⟨f.co_name, f.f_lineno, f.f_globals_name⟩
  | _ => none

end LoggingPy

/-- A Python exception object as the error trackers see it: its type's
`__name__`, its `str(...)` rendering, its `args` (rendered to strings), its
`__traceback__` (`none` when the error was never raised; otherwise the
already-formatted frame lines), and the remaining attributes of the object,
which the trackers never inspect. -/
structure PyError where
  typeName : String
  strRepr : String
  args : List String
  tb : Option (List String)
  extra : List (String × String)
deriving DecidableEq

/-- The final line of a formatted exception, as CPython's
`traceback.format_exception_only` renders it: `"Type: message\n"`, or just
`"Type\n"` when the message is empty. -/
def excLine (typeName strRepr : String) : String :=
  (if strRepr = "" then typeName else typeName ++ ": " ++ strRepr) ++ "\x0a"

/-- Model of CPython's `traceback.format_exception(type(e), e,
e.__traceback__)`: with no traceback it returns only the exception line;
with a traceback it prepends the header and the formatted frame lines. -/
def format_exception (typeName strRepr : String)
    (tb : Option (List String)) : List String :=
  match tb with
  | none => [excLine typeName strRepr]
  | some frames =>
    ("Traceback (most recent call last):\x0a" :: frames)
      ++ [excLine typeName strRepr]

namespace Loggers

/-- The dictionary returned by `loggers.ErrorTracker.capture_error`
(loggers.py lines 18-27). -/
structure ErrorDict where
  error_type : String
  error_message : String
  error_args : List String
  error_traceback : List String
deriving DecidableEq

/-- Embedding of `loggers.ErrorTracker.capture_error` (loggers.py lines
18-27): reads only the error's type name, `str`, `args` and traceback. -/
def ErrorTracker.capture_error (e : PyError) : ErrorDict :=
  ⟨e.typeName, e.strRepr, e.args,
    format_exception e.typeName e.strRepr e.tb⟩

end Loggers

namespace LoggingPy

/-- The dictionary returned by `logging.ErrorTracker.capture_error`
(logging.py lines 9-19): same fields as the loggers.py variant plus a
`timestamp` taken from `datetime.now().isoformat()`. -/
structure ErrorDictT where
  typ : String
  message : String
  args : List String
  traceback : List String
  timestamp : String
deriving DecidableEq

/-- Embedding of `logging.ErrorTracker.capture_error` (logging.py lines
9-19).  `now` is the ambient clock value read by `datetime.now()` at the
moment of the call. -/
def ErrorTracker.capture_error (e : PyError) (now : String) : ErrorDictT :=
  ⟨e.typeName, e.strRepr, e.args,
    format_exception e.typeName e.strRepr e.tb, now⟩

end LoggingPy

/-- The process-wide log-record factory (`logging.getLogRecordFactory`).
`base` is any pre-existing factory; `withInfo info inner` is the call-local
closure `record_factory` that `Logger._log` builds around the previous
factory to inject one call's execution info. -/
inductive RecordFactory where
  | base : RecordFactory
  | withInfo : ExecInfo → RecordFactory → RecordFactory
deriving DecidableEq

/-- Observable effect of one `Logger._log` call on the process-wide record
factory: the value the global factory holds while `self._logger.log(...)`
dispatches, the value it holds after the `finally` block, and whether the
dispatch exception (if any) propagates to the caller. -/
structure FactoryRun where
  duringDispatch : RecordFactory
  afterCall : RecordFactory
  raised : Bool
deriving DecidableEq

namespace Loggers

/-- Embedding of the record-factory manipulation in `Logger._log`
(loggers.py lines 115-134): `old_factory = logging.getLogRecordFactory()`;
`logging.setLogRecordFactory(record_factory)` where `record_factory` wraps
`old_factory` and attaches `exec_info`; dispatch; `finally:
logging.setLogRecordFactory(old_factory)`.  `g` is the global factory on
entry and `dispatchRaises` tells whether `self._logger.log` raises. -/
def Logger.log_factorySwap (g : RecordFactory) (info : ExecInfo)
    (dispatchRaises : Bool) : FactoryRun :=
  { duringDispatch := RecordFactory.withInfo info g
    afterCall := g
    raised := dispatchRaises }

end Loggers

/-- A `logging.LogRecord` as the sinks see it after the record factory ran.
`name`, `levelname` and `msg` always exist; the custom and error attributes
are `Option (Option _)`: outer `none` means the attribute is absent (the
`getattr` defaults in `SQLAlchemyLogHandler.emit` fire), inner `none` means
the attribute holds Python `None`. -/
structure PyRecord where
  name : String
  levelname : String
  msg : String
  custom_module : Option (Option String)
  custom_cls : Option (Option String)
  custom_function : Option (Option String)
  custom_lineno : Option (Option Int)
  error_type : Option (Option String)
  error_message : Option (Option String)
  error_args : Option (Option String)
  error_traceback : Option (Option String)
deriving DecidableEq

/-- A row of the `logs` table (log_models.py lines 9-25).  `name_logger`,
`level` and `message` are the non-nullable columns; the rest are nullable
and an inner `none` is SQL `NULL`. -/
structure LogRow where
  name_logger : String
  level : String
  message : String
  module : Option String
  classname : Option String
  func_name : Option String
  lineno : Option Int
  error_type : Option String
  error_message : Option String
  error_args : Option String
  error_traceback : Option String
deriving DecidableEq

/-- Outcome of one `SQLAlchemyLogHandler.store_log` call: the storage
contents after the call, whether the commit succeeded, whether the session
was rolled back, whether it was closed, and whether an exception
propagated to the caller. -/
structure StoreOutcome where
  db : List LogRow
  committed : Bool
  rolledBack : Bool
  closed : Bool
  raised : Bool
deriving DecidableEq

namespace Loggers

/-- Embedding of `SQLAlchemyLogHandler.store_log` (loggers.py lines
169-178): `session = self.Session(); session.add(log); session.commit();
session.close()`.  There is no `try`/`except`/`finally`: when the commit
raises (`commitFails`, an environmental database fault), the exception
propagates, `session.close()` is never reached, and no rollback happens;
the failed commit persists no row. -/
def SQLAlchemyLogHandler.store_log (db : List LogRow)
    (name_logger level message : String)
    (module classname func_name : Option String) (lineno : Option Int)
    (error_type error_message error_args error_traceback : Option String)
    (commitFails : Bool) : StoreOutcome :=
  let log : LogRow :=
    ⟨name_logger, level, message, module, classname, func_name, lineno,
      error_type, error_message, error_args, error_traceback⟩
  if commitFails then
    { db := db, committed := false, rolledBack := false, closed := false,
      raised := true }
  else
    { db := db ++ [log], committed := true, rolledBack := false,
      closed := true, raised := false }

/-- Embedding of `SQLAlchemyLogHandler.emit` (loggers.py lines 180-194).
`fmt` is the formatter installed on the handler (`self.format(record)`
renders the whole log line with it); each field is read with
`getattr(record, attr, default)`, whose default is the string `"NA"`
(`-1` for `lineno`). -/
def SQLAlchemyLogHandler.emit (fmt : PyRecord → String) (db : List LogRow)
    (r : PyRecord) (commitFails : Bool) : StoreOutcome :=
  let log_entry := fmt r
  SQLAlchemyLogHandler.store_log db r.name r.levelname log_entry
    (r.custom_module.getD (some "NA"))
    (r.custom_cls.getD (some "NA"))
    (r.custom_function.getD (some "NA"))
    (r.custom_lineno.getD (some (-1)))
    (r.error_type.getD (some "NA"))
    (r.error_message.getD (some "NA"))
    (r.error_args.getD (some "NA"))
    (r.error_traceback.getD (some "NA"))
    commitFails

end Loggers

/-- Renders a Python value for a `%(key)s` directive: `None` prints as
`"None"`. -/
def pyStr : Option String → String
  | none => "None"
  | some s => s

/-- The `"local"` format string installed by `PostgreSQLLogger._setup_logger`
(loggers.py lines 219-221): `%(asctime)s - %(name)s - %(levelname)s -
%(message)s -> %(custom_module)s - %(custom_function)s - %(custom_lineno)d`,
applied to a record that carries the three custom attributes.  On a record
missing one of them the source formatter raises; that case is rendered
`"None"` here and is never exercised by the theorems below. -/
def formatLocalAt (asctime : String) (r : LoggerSystem.PyRecord) : String :=
  asctime ++ " - " ++ r.name ++ " - " ++ r.levelname ++ " - " ++ r.msg
    ++ " -> " ++ pyStr (r.custom_module.getD none) ++ " - "
    ++ pyStr (r.custom_function.getD none) ++ " - "
    ++ (match r.custom_lineno.getD none with
        | none => "None"
        | some i => toString i)

/-- The handlers a facade logger can carry.  `stream` and `file` are the
stdlib `StreamHandler`/`FileHandler`, whose own `emit` catches every
exception internally and reports it through `handleError` (standard error);
`sqlalchemy` is the repository's `SQLAlchemyLogHandler`, whose `emit` has no
exception handling, so a failing `store_log` commit raises through it. -/
inductive HandlerKind where
  | stream : HandlerKind
  | file : HandlerKind
  | sqlalchemy : Bool → HandlerKind
deriving DecidableEq

/-- Whether a handler's `emit` lets an exception escape.  Stdlib handlers
never do; `SQLAlchemyLogHandler.emit` raises exactly when its commit fails
(its argument). -/
def handlerEmitRaises : HandlerKind → Bool
  | HandlerKind.sqlalchemy commitFails => commitFails
  | _ => false

/-- Embedding of the stdlib dispatch `Logger.callHandlers` reached from
`self._logger.log(...)`: each handler's `handle` runs `emit` with no
surrounding `try`/`except`, so the first emit that raises aborts the loop
and the exception propagates; handlers after it are never offered the
record.  Returns the handlers that were offered the record, in order, and
whether an exception escaped. -/
def callHandlers : List HandlerKind → List HandlerKind × Bool
  | [] => ([], false)
  | h :: rest =>
    if handlerEmitRaises h then ([h], true)
    else
      let r := callHandlers rest
      (h :: r.1, r.2)

/-- The five levels of the public emission API. -/
inductive Level where
  | debug : Level
  | info : Level
  | warning : Level
  | error : Level
  | critical : Level
deriving DecidableEq

/-- The lowercase method name of each level method. -/
def levelName : Level → String
  | Level.debug => "debug"
  | Level.info => "info"
  | Level.warning => "warning"
  | Level.error => "error"
  | Level.critical => "critical"

/-- The `levelname` attribute of the records the stdlib builds per level. -/
def levelUpper : Level → String
  | Level.debug => "DEBUG"
  | Level.info => "INFO"
  | Level.warning => "WARNING"
  | Level.error => "ERROR"
  | Level.critical => "CRITICAL"

/-- Capitalizes the first character of a string. -/
def capFirst (s : String) : String :=
  match s.data with
  | [] => s
  | c :: cs => String.mk (c.toUpper :: cs)

namespace Loggers

/-- The message each facade level method hands to `self._log` (loggers.py
lines 136-151): the f-strings `f"Debug: {message}"`, `f"Info: {message}"`,
`f"Warning: {message}"`, `f"Error: {message}"`, `f"Critical: {message}"`. -/
def Logger.levelMessage : Level → String → String
  | Level.debug, m => "Debug: " ++ m
  | Level.info, m => "Info: " ++ m
  | Level.warning, m => "Warning: " ++ m
  | Level.error, m => "Error: " ++ m
  | Level.critical, m => "Critical: " ++ m

/-- The record `Logger._log`'s `record_factory` produces for one call
(loggers.py lines 121-126): the factory sets `custom_function`,
`custom_lineno` and `custom_module` from `exec_info` (each may be Python
`None`), never sets `custom_class`, and the error attributes are only
present when supplied via `extra`. -/
def Logger.buildRecord (name : String) (lvl : Level) (message : String)
    (info : ExecInfo) : PyRecord :=
  { name := name
    levelname := levelUpper lvl
    msg := message
    custom_module := some info.module
    custom_cls := none
    custom_function := some info.function
    custom_lineno := some (info.lineno.map Int.ofNat)
    error_type := none
    error_message := none
    error_args := none
    error_traceback := none }

/-- One facade level call end to end: the level method builds the tagged
message, `_log` resolves context and dispatches one record through the
attached handlers.  Returns each offered handler paired with the record it
received, and whether a dispatch exception escaped to the application
caller (the `finally` in `_log` restores the factory but re-raises). -/
def Logger.levelEmit (name : String) (hs : List HandlerKind) (lvl : Level)
    (m : String) (info : ExecInfo) : List (HandlerKind × PyRecord) × Bool :=
  let record := Logger.buildRecord name lvl (Logger.levelMessage lvl m) info
  let r := callHandlers hs
  (r.1.map (fun h => (h, record)), r.2)

/-- Whether a facade level call raises to the application caller: exactly
when the stdlib dispatch lets a handler exception escape (loggers.py lines
130-134 re-raise after the `finally`). -/
def Logger.log_raises (hs : List HandlerKind) : Bool :=
  (callHandlers hs).2

end Loggers

/-- The state of one `loggers.Logger` object for the registry model: its
logical name, target file, formatter style, and the identities of its
currently attached handlers.  Handler identities are drawn from a fresh
counter so that re-provisioning is observable. -/
structure LoggerState where
  name : Option String
  log_file : Option String
  formatter_type : String
  handlers : List Nat
deriving DecidableEq

namespace Loggers

/-- Embedding of `Logger._setup_logger` (loggers.py lines 80-109): removes
every existing handler, then creates a fresh `FileHandler` (when
`log_file` is set) and a fresh `StreamHandler`.  `counter` supplies fresh
handler identities; the next unused identity is returned. -/
def Logger.setup_logger (l : LoggerState) (counter : Nat) :
    LoggerState × Nat :=
  match l.log_file with
  | some _ => ({ l with handlers := [counter, counter + 1] }, counter + 2)
  | none => ({ l with handlers := [counter] }, counter + 1)

/-- Embedding of `Logger.__init__` (loggers.py lines 69-78): stores the
configuration and runs `_setup_logger`. -/
def Logger.init (formatter_type : String) (log_file : Option String)
    (name : Option String) (counter : Nat) : LoggerState × Nat :=
  Logger.setup_logger ⟨name, log_file, formatter_type, []⟩ counter

/-- Embedding of `Logger.set_name` (loggers.py lines 111-113): stores the
new name and re-runs `_setup_logger`, discarding the attached handlers and
provisioning fresh ones. -/
def Logger.set_name (l : LoggerState) (new_name : Option String)
    (counter : Nat) : LoggerState × Nat :=
  Logger.setup_logger { l with name := new_name } counter

end Loggers

/-- Finds the logger cached under a key (`log_file in cls._loggers` /
`cls._loggers[log_file]`). -/
def assocFind (k : String) :
    List (String × LoggerState) → Option LoggerState
  | [] => none
  | (k', v) :: rest => if k' = k then some v else assocFind k rest

/-- Replaces the logger cached under a key, leaving other entries alone. -/
def assocUpdate (k : String) (v : LoggerState) :
    List (String × LoggerState) → List (String × LoggerState)
  | [] => []
  | (k', v') :: rest =>
    if k' = k then (k', v) :: rest else (k', v') :: assocUpdate k v rest

/-- The state of `LoggerManager` (logging_manager.py): the `_loggers` cache
plus the fresh-handler counter threading through provisioning. -/
structure ManagerState where
  loggers : List (String × LoggerState)
  counter : Nat
deriving DecidableEq

/-- Embedding of `LoggerManager.get_logger` (logging_manager.py lines
8-19): a first lookup for `log_file` constructs a `Logger` and caches it;
a repeated lookup calls `set_name(name)` on the cached instance and
returns it. -/
def LoggerManager.get_logger (s : ManagerState) (log_file : String)
    (formatter_type : String) (name : Option String) :
    LoggerState × ManagerState :=
  match assocFind log_file s.loggers with
  | none =>
    let r := Loggers.Logger.init formatter_type (some log_file) name s.counter
    (r.1, ⟨s.loggers ++ [(log_file, r.1)], r.2⟩)
  | some l =>
    let r := Loggers.Logger.set_name l name s.counter
    (r.1, ⟨assocUpdate log_file r.1 s.loggers, r.2⟩)

/-- A frame of a top-level script function, used as a concrete shallow
stack. -/
def shallowMain : Frame := ⟨"main", 1, some "__main__", none⟩

/-- A concrete execution-info value of an application caller. -/
def sampleInfo : ExecInfo :=
  ⟨some "handler", some 10, some "app.main", none⟩

/-- A concrete record whose `custom_class` and error attributes are absent,
as every record built by `Logger._log`'s factory is. -/
def naRecord : PyRecord :=
  { name := "svc"
    levelname := "DEBUG"
    msg := "Debug: hi"
    custom_module := some (some "app.main")
    custom_cls := none
    custom_function := some (some "handler")
    custom_lineno := some (some 7)
    error_type := none
    error_message := none
    error_args := none
    error_traceback := none }

/-- The `"local"` formatter at a fixed record-creation instant. -/
def localFmt : PyRecord → String :=
  formatLocalAt "2025-01-01 00:00:00,000"

/-- First registry lookup for a fresh key, from an empty cache. -/
def firstLookup : LoggerState × ManagerState :=
  LoggerManager.get_logger ⟨[], 0⟩ "logs/app.log" "local" (some "svc")

/-- Second registry lookup for the same key with a new name. -/
def secondLookup : LoggerState × ManagerState :=
  LoggerManager.get_logger firstLookup.2 "logs/app.log" "local" (some "svc2")

/-- A concrete cached logger used to instantiate the registry theorem. -/
def wLogger : LoggerState :=
  ⟨some "svc", some "logs/app.log", "local", [0, 1]⟩

/-- A concrete manager state caching `wLogger`. -/
def wState : ManagerState := ⟨[("logs/app.log", wLogger)], 2⟩

/-- A concrete error that was constructed but never raised: no traceback. -/
def unraisedError : PyError := ⟨"ValueError", "boom", ["boom"], none, []⟩

/-- A concrete raised error carrying a traceback and an extra attribute. -/
def timedError : PyError :=
  ⟨"RuntimeError", "later", ["later"],
    some ["  File app.py, line 1, in main\x0a"], [("code", "500")]⟩

end LoggerSystem

/-! Theorems.  Each claim-bearing theorem is stated over the embedding
above; helper lemmas come first. -/

open LoggerSystem

/-- Wrapping any factory in a call-specific closure yields a different
factory value. -/
theorem RecordFactory.withInfo_ne (g : RecordFactory) :
    ∀ info : ExecInfo, RecordFactory.withInfo info g ≠ g := by
  induction g with
  | base => intro info h; exact RecordFactory.noConfusion h
  | withInfo j g ih =>
    intro i h
    injection h with h1 h2
    exact ih j h2

/-- Updating a cached entry never changes the number of cache entries. -/
theorem assocUpdate_length (k : String) (v : LoggerState) :
    ∀ xs : List (String × LoggerState),
      (assocUpdate k v xs).length = xs.length := by
  intro xs
  induction xs with
  | nil => rfl
  | cons p rest ih =>
    obtain ⟨k', v'⟩ := p
    by_cases hp : k' = k
    · simp [assocUpdate, hp]
    · simp [assocUpdate, hp, ih]

/-- Every handler `_setup_logger` attaches is freshly created: its identity
is at least the counter value on entry. -/
theorem setup_logger_handlers_fresh (l : LoggerState) (c : Nat) :
    ∀ i ∈ (Loggers.Logger.setup_logger l c).1.handlers, c ≤ i := by
  intro i hi
  cases hf : l.log_file with
  | none =>
    simp [Loggers.Logger.setup_logger, hf] at hi
    omega
  | some f =>
    simp [Loggers.Logger.setup_logger, hf] at hi
    rcases hi with rfl | rfl <;> omega

/-- When no handler's emit raises, dispatch offers the record to every
attached handler in order and no exception escapes. -/
theorem callHandlers_all_ok (hs : List HandlerKind)
    (h : ∀ k ∈ hs, handlerEmitRaises k = false) :
    (callHandlers hs).1 = hs ∧ (callHandlers hs).2 = false := by
  induction hs with
  | nil => exact ⟨rfl, rfl⟩
  | cons k rest ih =>
    have hk := h k (List.mem_cons_self k rest)
    have hrest := ih (fun x hx => h x (List.mem_cons_of_mem k hx))
    simp [callHandlers, hk, hrest.1, hrest.2]

/-- C1: for a call made directly from an application function to a facade
level method, the resolver walks past exactly the three logging-facility
frames (resolver, `_log`, level method) and reports the calling function's
name, the call-site line and the calling module. -/
theorem facade_level_call_resolves_true_caller
    (method : String) (line : Nat) (appF : Frame) (rest : List Frame) :
    (Loggers.Logger.level_execInfo method line (appF :: rest)).function
        = some appF.co_name
    ∧ (Loggers.Logger.level_execInfo method line (appF :: rest)).lineno
        = some appF.f_lineno
    ∧ (Loggers.Logger.level_execInfo method line (appF :: rest)).module
        = appF.f_globals_name :=
  ⟨rfl, rfl, rfl⟩

/-- C2 counterexample: the `logging.py` resolver dereferences
`f_back.f_back.f_back` unguarded, so on a stack with no enclosing frame the
attribute access on `None` raises (modelled by `none`) instead of returning
a context value. -/
theorem logging_resolver_raises_on_shallow_stack :
    LoggingPy.AutoTracker.get_execution_info [shallowMain] = none := rfl

/-- C2 (amended): the `loggers.py` resolver never fails: on every stack it
returns either the all-absent context (no frame available at all) or the
context of a frame actually on the stack — for stacks shallower than the
skip count, the deepest frame still reachable. -/
theorem loggers_resolver_total_on_all_stacks (stack : List Frame) :
    Loggers.AutoTracker.get_execution_info stack = ExecInfo.empty
    ∨ ∃ f ∈ stack,
        Loggers.AutoTracker.get_execution_info stack = ExecInfo.ofFrame f := by
  match stack with
  | [] => exact Or.inl rfl
  | [a] => exact Or.inr ⟨a, by simp, rfl⟩
  | [a, b] => exact Or.inr ⟨b, by simp, rfl⟩
  | [a, b, c] => exact Or.inr ⟨c, by simp, rfl⟩
  | a :: b :: c :: d :: rest => exact Or.inr ⟨d, by simp, rfl⟩

/-- C3 counterexample: during dispatch, `Logger._log` has set the
process-wide record factory to the call-specific closure, a value different
from the factory that was installed on entry. -/
theorem log_swaps_global_factory_to_call_specific :
    (Loggers.Logger.log_factorySwap RecordFactory.base sampleInfo
        false).duringDispatch ≠ RecordFactory.base := by
  decide

/-- C3 (amended): `Logger._log` swaps the process-wide record factory to a
call-specific closure for the whole duration of dispatch — observable by
any concurrent log call — and restores the original factory afterwards,
also when dispatch raises. -/
theorem log_factory_swap_and_restore (g : RecordFactory) (info : ExecInfo)
    (dispatchRaises : Bool) :
    (Loggers.Logger.log_factorySwap g info dispatchRaises).duringDispatch
        = RecordFactory.withInfo info g
    ∧ (Loggers.Logger.log_factorySwap g info dispatchRaises).duringDispatch
        ≠ g
    ∧ (Loggers.Logger.log_factorySwap g info dispatchRaises).afterCall = g :=
  ⟨rfl, RecordFactory.withInfo_ne g info, rfl⟩

/-- C4: when the commit in `store_log` fails, the code neither rolls back
nor closes the session — the exception propagates with the session left
open (no `try`/`finally` exists); only the absence of a partial row holds. -/
theorem store_log_commit_failure_leaves_session_open :
    (Loggers.SQLAlchemyLogHandler.store_log [] "svc" "ERROR" "Error: boom"
        (some "app.main") (some "NA") (some "handler") (some 7) (some "NA")
        (some "NA") (some "NA") (some "NA") true).raised = true
    ∧ (Loggers.SQLAlchemyLogHandler.store_log [] "svc" "ERROR" "Error: boom"
        (some "app.main") (some "NA") (some "handler") (some 7) (some "NA")
        (some "NA") (some "NA") (some "NA") true).rolledBack = false
    ∧ (Loggers.SQLAlchemyLogHandler.store_log [] "svc" "ERROR" "Error: boom"
        (some "app.main") (some "NA") (some "handler") (some 7) (some "NA")
        (some "NA") (some "NA") (some "NA") true).closed = false
    ∧ (Loggers.SQLAlchemyLogHandler.store_log [] "svc" "ERROR" "Error: boom"
        (some "app.main") (some "NA") (some "handler") (some 7) (some "NA")
        (some "NA") (some "NA") (some "NA") true).db = [] := by
  decide

/-- C5 counterexample: on a record whose `custom_class` attribute is absent
(as on every record the factory builds), the stored `classname` column is
the sentinel string `"NA"`, not SQL `NULL`; and the `message` column holds
the formatter's whole rendered line, not the record's message text. -/
theorem emit_stores_sentinel_not_null :
    ((Loggers.SQLAlchemyLogHandler.emit localFmt [] naRecord false).db.map
        (fun row => row.classname)) = [some "NA"]
    ∧ ((Loggers.SQLAlchemyLogHandler.emit localFmt [] naRecord false).db.map
        (fun row => row.message)) ≠ [naRecord.msg] := by
  decide

/-- C5 (amended): `emit` appends exactly one row per call; each column gets
the record's corresponding attribute, but an absent attribute is stored as
the sentinel `"NA"` (`-1` for `lineno`) rather than `NULL` — `NULL` arises
only when the attribute is present with value `None` — and the `message`
column receives the handler-formatted line, not the raw message. -/
theorem emit_row_mapping_with_defaults (fmt : PyRecord → String)
    (db : List LogRow) (r : PyRecord) :
    (Loggers.SQLAlchemyLogHandler.emit fmt db r false).db =
      db ++ [({ name_logger := r.name
                level := r.levelname
                message := fmt r
                module := r.custom_module.getD (some "NA")
                classname := r.custom_cls.getD (some "NA")
                func_name := r.custom_function.getD (some "NA")
                lineno := r.custom_lineno.getD (some (-1))
                error_type := r.error_type.getD (some "NA")
                error_message := r.error_message.getD (some "NA")
                error_args := r.error_args.getD (some "NA")
                error_traceback := r.error_traceback.getD (some "NA") }
              : LogRow)]
    ∧ (Loggers.SQLAlchemyLogHandler.emit fmt db r false).committed = true
    ∧ (Loggers.SQLAlchemyLogHandler.emit fmt db r false).raised = false :=
  ⟨rfl, rfl, rfl⟩

/-- C6 counterexample: a second registry lookup for the same key returns
the cached facade, but with entirely new handlers: `set_name` re-runs
`_setup_logger`, which tears down handler identities 0 and 1 and provisions
fresh identities 2 and 3. -/
theorem repeated_lookup_reprovisions_handlers :
    firstLookup.1.handlers = [0, 1]
    ∧ secondLookup.1.handlers = [2, 3]
    ∧ (∀ i ∈ secondLookup.1.handlers, i ∉ firstLookup.1.handlers)
    ∧ secondLookup.2.loggers.length = 1 := by
  decide

/-- C6 (amended): a repeated lookup returns the cached facade (no new cache
entry) renamed to the requested name, but always re-runs provisioning: the
returned facade's handlers are freshly created (identities at least the
pre-call counter), so when the cached facade's handlers predate the call
none of them are reused. -/
theorem get_logger_cached_rename_reprovisions
    (s : ManagerState) (key ft : String) (nm : Option String)
    (l : LoggerState) (h : assocFind key s.loggers = some l) :
    (LoggerManager.get_logger s key ft nm).1
        = (Loggers.Logger.set_name l nm s.counter).1
    ∧ ((LoggerManager.get_logger s key ft nm).2).loggers.length
        = s.loggers.length
    ∧ (∀ i ∈ ((LoggerManager.get_logger s key ft nm).1).handlers,
        s.counter ≤ i)
    ∧ ((∀ j ∈ l.handlers, j < s.counter) →
        ∀ i ∈ ((LoggerManager.get_logger s key ft nm).1).handlers,
          i ∉ l.handlers) := by
  have hg : LoggerManager.get_logger s key ft nm
      = ((Loggers.Logger.set_name l nm s.counter).1,
          ⟨assocUpdate key (Loggers.Logger.set_name l nm s.counter).1
              s.loggers,
            (Loggers.Logger.set_name l nm s.counter).2⟩) := by
    simp [LoggerManager.get_logger, h]
  rw [hg]
  refine ⟨rfl, assocUpdate_length key _ s.loggers, ?_, ?_⟩
  · exact setup_logger_handlers_fresh { l with name := nm } s.counter
  · intro hlt i hi habs
    have h1 := setup_logger_handlers_fresh { l with name := nm } s.counter i hi
    have h2 := hlt i habs
    omega

/-- C6 witness: the amended theorem instantiated at a concrete cached
state. -/
theorem get_logger_cached_rename_reprovisions_witness :
    (LoggerManager.get_logger wState "logs/app.log" "local" (some "svc2")).1
        = (Loggers.Logger.set_name wLogger (some "svc2") 2).1
    ∧ ((LoggerManager.get_logger wState "logs/app.log" "local"
          (some "svc2")).2).loggers.length = wState.loggers.length
    ∧ (∀ i ∈ ((LoggerManager.get_logger wState "logs/app.log" "local"
          (some "svc2")).1).handlers, wState.counter ≤ i)
    ∧ ((∀ j ∈ wLogger.handlers, j < wState.counter) →
        ∀ i ∈ ((LoggerManager.get_logger wState "logs/app.log" "local"
            (some "svc2")).1).handlers, i ∉ wLogger.handlers) :=
  get_logger_cached_rename_reprovisions wState "logs/app.log" "local"
    (some "svc2") wLogger (by decide)

/-- C7 counterexample: on an error with no traceback, `capture_error`
returns a one-element trace holding the formatted exception line — not an
empty sequence. -/
theorem capture_error_no_traceback_trace_nonempty :
    (Loggers.ErrorTracker.capture_error unraisedError).error_traceback
        = ["ValueError: boom\x0a"]
    ∧ (Loggers.ErrorTracker.capture_error unraisedError).error_traceback
        ≠ ([] : List String) := by
  decide

/-- C7 (amended): `capture_error` is total (it never raises: it reads only
the four attributes every exception carries), and on an error with no
traceback the captured trace holds exactly the formatted exception line,
with no stack-frame entries. -/
theorem capture_error_no_traceback_single_line (e : PyError)
    (h : e.tb = none) :
    Loggers.ErrorTracker.capture_error e
      = ⟨e.typeName, e.strRepr, e.args, [excLine e.typeName e.strRepr]⟩ := by
  simp [Loggers.ErrorTracker.capture_error, format_exception, h]

/-- C7 witness: the amended theorem at a concrete never-raised error. -/
theorem capture_error_no_traceback_single_line_witness :
    Loggers.ErrorTracker.capture_error ⟨"KeyError", "k", ["k"], none, []⟩
      = ⟨"KeyError", "k", ["k"], [excLine "KeyError" "k"]⟩ :=
  capture_error_no_traceback_single_line ⟨"KeyError", "k", ["k"], none, []⟩
    rfl

/-- C8 counterexample: the `logging.py` error capture embeds
`datetime.now()`: two invocations on the very same error object at
different instants produce different results. -/
theorem logging_capture_error_time_dependent :
    LoggingPy.ErrorTracker.capture_error timedError "2026-10-12T00:00:00"
      ≠ LoggingPy.ErrorTracker.capture_error timedError
          "2026-10-12T00:00:01" := by
  decide

/-- C8 (amended): the `loggers.py` error capture is pure and deterministic:
its result depends only on the error's kind, message, arguments and
traceback — errors differing in any other attribute capture identically. -/
theorem loggers_capture_error_deterministic (e e' : PyError)
    (h1 : e.typeName = e'.typeName) (h2 : e.strRepr = e'.strRepr)
    (h3 : e.args = e'.args) (h4 : e.tb = e'.tb) :
    Loggers.ErrorTracker.capture_error e
      = Loggers.ErrorTracker.capture_error e' := by
  simp [Loggers.ErrorTracker.capture_error, h1, h2, h3, h4]

/-- C8 witness: two concrete errors equal in the four captured attributes
but differing in their remaining attributes capture identically. -/
theorem loggers_capture_error_deterministic_witness :
    Loggers.ErrorTracker.capture_error ⟨"E", "m", [], none, [("attr", "1")]⟩
      = Loggers.ErrorTracker.capture_error ⟨"E", "m", [], none, []⟩ :=
  loggers_capture_error_deterministic _ _ rfl rfl rfl rfl

/-- C9: a database sink whose commit fails raises through
`SQLAlchemyLogHandler.emit` (which has no exception handling) and through
the stdlib dispatch: the exception escapes the level call to the
application caller, and the following console sink is never offered the
record. -/
theorem db_sink_failure_reaches_caller_and_blocks_later_sinks :
    (callHandlers [HandlerKind.sqlalchemy true, HandlerKind.stream]).2 = true
    ∧ (callHandlers [HandlerKind.sqlalchemy true, HandlerKind.stream]).1
        = [HandlerKind.sqlalchemy true]
    ∧ Loggers.Logger.log_raises
        [HandlerKind.sqlalchemy true, HandlerKind.stream] = true := by
  decide

/-- C10: every facade level method hands `_log` the message prefixed with
the capitalized level name, a colon and a space; every handler that is
offered the record sees that same tagged message, and when no handler's
emit fails the record reaches every attached sink. -/
theorem level_methods_tag_and_broadcast_message (lvl : Level)
    (m name : String) (info : ExecInfo) (hs : List HandlerKind) :
    Loggers.Logger.levelMessage lvl m = capFirst (levelName lvl) ++ ": " ++ m
    ∧ (∀ p ∈ (Loggers.Logger.levelEmit name hs lvl m info).1,
        p.2.msg = Loggers.Logger.levelMessage lvl m)
    ∧ ((∀ k ∈ hs, handlerEmitRaises k = false) →
        (Loggers.Logger.levelEmit name hs lvl m info).1
          = hs.map (fun k => (k, Loggers.Logger.buildRecord name lvl
              (Loggers.Logger.levelMessage lvl m) info))) := by
  refine ⟨?_, ?_, ?_⟩
  · cases lvl <;> rfl
  · intro p hp
    simp [Loggers.Logger.levelEmit] at hp
    obtain ⟨k, hk, rfl⟩ := hp
    rfl
  · intro hall
    simp [Loggers.Logger.levelEmit, (callHandlers_all_ok hs hall).1]

/-- C10 witness: the theorem at a concrete error-level call over one
console sink, with the no-failure hypothesis discharged. -/
theorem level_methods_tag_and_broadcast_message_witness :
    Loggers.Logger.levelMessage Level.error "boom"
        = capFirst (levelName Level.error) ++ ": " ++ "boom"
    ∧ (Loggers.Logger.levelEmit "svc" [HandlerKind.stream] Level.error
          "boom" sampleInfo).1
        = [HandlerKind.stream].map (fun k => (k, Loggers.Logger.buildRecord
            "svc" Level.error (Loggers.Logger.levelMessage Level.error
              "boom") sampleInfo)) :=
  ⟨(level_methods_tag_and_broadcast_message Level.error "boom" "svc"
      sampleInfo [HandlerKind.stream]).1,
    (level_methods_tag_and_broadcast_message Level.error "boom" "svc"
      sampleInfo [HandlerKind.stream]).2.2 (by decide)⟩
